import Mathlib

/-!
Verification of the turn-taking / interruption core of the Max voice
assistant (STT segmentation, TTS playback, keyboard interrupt fallback).

The Python modules are shallowly embedded:
* `STT` models `src/stt_module.py`: the audio delivery callback, the
  pause/resume operations and one iteration of `_process_audio_stream`
  are atomic commands acting on an explicit state.  Durations are in
  milliseconds (chunk 300 ms, hangover 150 ms, min speech 100 ms,
  cap 5000 ms; the code's seconds are scaled by 1000), amplitudes in
  thousandths (threshold 0.01 becomes 10).
* `TTS` models `src/tts_module.py`: `_speak_sync` becomes a list of
  intermediate states (a trace of the statement-level atomic steps),
  `stop_speaking` / `interrupt_speech` become state functions.
* `KB` models `src/keyboard_interrupt.py`: `start_listening` and its
  fallback, as a function of an environment describing whether the
  keyboard module imports and what `keyboard.wait` does.
-/

namespace STT

/-- An audio chunk as seen by the segmentation loop: an identity tag and
its peak amplitude in thousandths of full scale. -/
structure Frame where
  id : Nat
  amp : Nat
  deriving DecidableEq, Repr

/-- Python `chunk_duration = 0.3` s, in ms. -/
def chunkMs : Nat := 300
/-- Python `silence_threshold = 0.01`, in thousandths. -/
def silenceThresholdMilli : Nat := 10
/-- Python `silence_duration = 0.15` s, in ms. -/
def silenceDurMs : Nat := 150
/-- Python `min_speech_duration = 0.1` s, in ms. -/
def minSpeechMs : Nat := 100
/-- The `buffer_duration > 5.0` cap of `_process_audio_stream`, in ms. -/
def maxBufferMs : Nat := 5000

/-- Model of `STTModule._is_silence`: peak amplitude below the threshold. -/
def isSilenceF (f : Frame) : Bool := f.amp < silenceThresholdMilli

/-- The mutable state shared between `_audio_callback`,
`pause_listening` / `resume_listening` and `_process_audio_stream`:
the listening and pause flags, the delivery queue (`audio_queue`), the
loop-local utterance buffer (`audio_buffer`) and silence tracker
(`silence_start`), and the list of utterances handed to the
transcriber so far. -/
structure State where
  is_listening : Bool
  is_paused : Bool
  queue : List Frame
  buffer : List Frame
  silence_start : Option Nat
  emissions : List (List Frame)
  deriving DecidableEq, Repr

/-- The state right after `start_listening` sets the flags: listening,
unpaused, empty queue and buffer. -/
def initListening : State :=
  { is_listening := true, is_paused := false, queue := [], buffer := [],
    silence_start := none, emissions := [] }

/-- Atomic events of the system: a frame arriving at `_audio_callback`,
`pause_listening`, `resume_listening`, and one iteration of the
`_process_audio_stream` loop at wall-clock time `now` (ms). -/
inductive Cmd where
  | deliver (f : Frame)
  | pauseListening
  | resumeListening
  | tick (now : Nat)
  deriving DecidableEq, Repr

/-- One atomic event.
* `deliver`: `_audio_callback` enqueues the frame only when
  `is_listening and not is_paused`, else drops it.
* `pauseListening`: sets `is_paused` and drains `audio_queue`
  (it does not touch the loop-local `audio_buffer`).
* `resumeListening`: clears `is_paused`.
* `tick now`: one iteration of `_process_audio_stream`: skip when
  paused or not listening, otherwise take one chunk from the queue,
  append it to the buffer, update the silence tracker, and emit the
  concatenated buffer when the min-speech/hangover condition or the
  duration cap fires. -/
def step (s : State) (c : Cmd) : State :=
  match c with
  | Cmd.deliver f =>
      if s.is_listening && !s.is_paused then { s with queue := s.queue ++ [f] }
      else s
  | Cmd.pauseListening => { s with is_paused := true, queue := [] }
  | Cmd.resumeListening => { s with is_paused := false }
  | Cmd.tick now =>
      if !s.is_listening then s
      else if s.is_paused then s
      else
        match s.queue with
        | [] => s
        | f :: rest =>
            let buffer' := s.buffer ++ [f]
            let silenceStart' : Option Nat :=
              if isSilenceF f then
                match s.silence_start with
                | none => some now
                | some t => some t
              else none
            let bufDur := buffer'.length * chunkMs
            let silDur := match silenceStart' with
              | some t => now - t
              | none => 0
            if bufDur ≥ minSpeechMs ∧ silDur ≥ silenceDurMs ∧ 0 < buffer'.length then
              { s with queue := rest, buffer := [], silence_start := none,
                       emissions := s.emissions ++ [buffer'] }
            else if bufDur > maxBufferMs then
              { s with queue := rest, buffer := [], silence_start := none,
                       emissions := s.emissions ++ [buffer'] }
            else
              { s with queue := rest, buffer := buffer',
                       silence_start := silenceStart' }

/-- Run a sequence of events. -/
def run (s : State) : List Cmd → State
  | [] => s
  | c :: cs => run (step s c) cs

/-- Does a frame with tag `x` sit in the queue or the buffer? -/
def frameIdInState (x : Nat) (s : State) : Bool :=
  s.queue.any (fun f => f.id = x) || s.buffer.any (fun f => f.id = x)

/-- Does a frame with tag `x` occur in some utterance handed to the
transcriber? -/
def frameIdInEmissions (x : Nat) (s : State) : Bool :=
  s.emissions.any (fun u => u.any (fun f => f.id = x))

/-- Substring machinery of `MaxAIAssistant._on_transcription`'s
`phrase in text.lower()` check: list-of-characters prefix test. -/
def startsWithB : List Char → List Char → Bool
  | [], _ => true
  | _ :: _, [] => false
  | a :: as, b :: bs => a = b && startsWithB as bs

/-- Python `needle in hay` for character lists. -/
def containsSubB (needle : List Char) : List Char → Bool
  | [] => startsWithB needle []
  | c :: cs => startsWithB needle (c :: cs) || containsSubB needle cs

/-- The stop phrases of `MaxAIAssistant._on_transcription`. -/
def stopPhrases : List String := ["stop", "interrupt", "shut up", "quiet"]

/-- Model of `any(phrase in text.lower() for phrase in [...])` from
`MaxAIAssistant._on_transcription`. -/
def isStopCommand (text : String) : Bool :=
  stopPhrases.any (fun p => containsSubB p.toList text.toLower.toList)

/-- A run exercising `pause_listening` mid-stream: one speech frame is
captured and processed into the utterance buffer, then the module is
paused (which drains only the delivery queue) and resumed, then two
silent frames complete an utterance. -/
def c2cmds : List Cmd :=
  [Cmd.deliver ⟨1, 500⟩, Cmd.tick 100, Cmd.pauseListening,
   Cmd.resumeListening, Cmd.deliver ⟨2, 0⟩, Cmd.tick 400,
   Cmd.deliver ⟨3, 0⟩, Cmd.tick 700]

/-- Was the delivery of a frame tagged `x` inactive (paused or not
listening) at this command?  Non-delivery commands are vacuously
inactive for `x`. -/
def inactiveDeliverB (x : Nat) (s : State) : Cmd → Bool
  | Cmd.deliver f => if f.id = x then s.is_paused || !s.is_listening else true
  | _ => true

/-- Along a run, every delivery of a frame tagged `x` happens while the
module is paused or not listening. -/
def inactiveAtDeliveries (x : Nat) : State → List Cmd → Bool
  | _, [] => true
  | s, c :: cs => inactiveDeliverB x s c && inactiveAtDeliveries x (step s c) cs

/-- A run feeding five silent frames (amplitude 0, below the 0.01
threshold) at the real-time 300 ms cadence, from the fresh listening
state. -/
def c7cmds : List Cmd :=
  [Cmd.deliver ⟨1, 0⟩, Cmd.tick 100, Cmd.deliver ⟨2, 0⟩, Cmd.tick 400,
   Cmd.deliver ⟨3, 0⟩, Cmd.tick 700, Cmd.deliver ⟨4, 0⟩, Cmd.tick 1000,
   Cmd.deliver ⟨5, 0⟩, Cmd.tick 1300]

end STT

namespace TTS

/-- The observable state touched by `TTSModule._speak_sync`,
`stop_speaking` and `interrupt_speech`: the `is_speaking` flag, the
paired STT module's `is_paused` flag, whether the playback subprocess
runs, whether the synthesized temp file exists, whether a TTS error was
printed, and counters for cancellation effects, interruption-callback
invocations and spawned speech threads. -/
structure State where
  is_speaking : Bool
  is_paused : Bool
  proc_running : Bool
  temp_exists : Bool
  error_reported : Bool
  cancel_count : Nat
  callback_count : Nat
  threads_started : Nat
  deriving DecidableEq, Repr

/-- No job active, STT listening. -/
def idle : State :=
  { is_speaking := false, is_paused := false, proc_running := false,
    temp_exists := false, error_reported := false, cancel_count := 0,
    callback_count := 0, threads_started := 0 }

/-- The statement-level trace of `TTSModule._speak_sync`, starting from
`s` (the pre-state is the first element).  In order: set `is_speaking`;
`stt_module.pause_listening()`; then either gTTS raises (error printed,
`finally` resumes STT and clears `is_speaking` — the temp file was
never created) or the temp file is saved, the playback subprocess runs
and finishes, STT is resumed in the `try` body, the temp file is
removed and STT resumed again in `finally`, and `is_speaking` is
cleared last. -/
def speakSyncTrace (synthFails : Bool) (s : State) : List State :=
  let s1 := { s with is_speaking := true }
  let s2 := { s1 with is_paused := true }
  if synthFails then
    let s3 := { s2 with error_reported := true }
    let s4 := { s3 with is_paused := false }
    let s5 := { s4 with is_speaking := false }
    [s, s1, s2, s3, s4, s5]
  else
    let s3 := { s2 with temp_exists := true }
    let s4 := { s3 with proc_running := true }
    let s5 := { s4 with proc_running := false }
    let s6 := { s5 with is_paused := false }
    let s7 := { s6 with temp_exists := false }
    let s8 := { s7 with is_paused := false }
    let s9 := { s8 with is_speaking := false }
    [s, s1, s2, s3, s4, s5, s6, s7, s8, s9]

/-- The state in which `_speak_sync` leaves the module. -/
def speakSyncFinal (synthFails : Bool) (s : State) : State :=
  (speakSyncTrace synthFails s).getLastD s

/-- Model of `TTSModule.stop_speaking`: acts only when `is_speaking`; then it
clears the flag, terminates the playback process, resumes STT, and one
cancellation effect occurs. -/
def stop_speaking (s : State) : State :=
  if s.is_speaking then
    { s with is_speaking := false, proc_running := false, is_paused := false,
             cancel_count := s.cancel_count + 1 }
  else s

/-- Model of `TTSModule.interrupt_speech`: when `is_speaking`, run
`stop_speaking` then fire the interruption callback; otherwise a
no-op. -/
def interrupt_speech (s : State) : State :=
  if s.is_speaking then
    let s' := stop_speaking s
    { s' with callback_count := s'.callback_count + 1 }
  else s

/-- The characters stripped by Python's `str.strip()` (ASCII whitespace
as produced by typical responses). -/
def isPyWhitespace (c : Char) : Bool :=
  c = ' ' || c = '\t' || c = '\n' || c = '\r' || c = '\x0b' || c = '\x0c'

/-- Python `text.strip()` over a character list. -/
def pyStrip (l : List Char) : List Char :=
  ((l.dropWhile isPyWhitespace).reverse.dropWhile isPyWhitespace).reverse

/-- A character matched by the emoji-removal regex of
`TTSModule._remove_emojis`. -/
def isEmojiChar (c : Char) : Bool :=
  (0x1F600 ≤ c.toNat && c.toNat ≤ 0x1F64F) ||
  (0x1F300 ≤ c.toNat && c.toNat ≤ 0x1F5FF) ||
  (0x1F680 ≤ c.toNat && c.toNat ≤ 0x1F6FF) ||
  (0x1F1E0 ≤ c.toNat && c.toNat ≤ 0x1F1FF) ||
  (0x2702 ≤ c.toNat && c.toNat ≤ 0x27B0) ||
  (0x24C2 ≤ c.toNat && c.toNat ≤ 0x1F251)

/-- Model of `TTSModule._remove_emojis`: delete emoji characters, then strip. -/
def removeEmojis (l : List Char) : List Char :=
  pyStrip (l.filter (fun c => !isEmojiChar c))

/-- The characters after the first `:`, if any (Python
`split(":", 1)[1]`). -/
def afterFirstColon : List Char → Option (List Char)
  | [] => none
  | c :: cs => if c = ':' then some cs else afterFirstColon cs

/-- Model of `TTSModule.speak`: return immediately when the stripped text is
empty; otherwise run `_speak_sync`, either synchronously (`blocking`)
or on a freshly started daemon thread (modelled as the thread counter
plus the thread running `_speak_sync` to completion). -/
def speak (synthFails : Bool) (blocking : Bool) (text : List Char)
    (s : State) : State :=
  if pyStrip text = [] then s
  else if blocking then speakSyncFinal synthFails s
  else speakSyncFinal synthFails
    { s with threads_started := s.threads_started + 1 }

/-- Model of `TTSModule.speak_response`: return when the stripped response is
empty; otherwise drop a leading `"🤖 Max…:"` tag, remove emojis and
speak non-blocking. -/
def speak_response (synthFails : Bool) (response : List Char)
    (s : State) : State :=
  if pyStrip response = [] then s
  else
    let clean := pyStrip response
    let clean :=
      if STT.startsWithB "🤖 Max".toList clean then
        match afterFirstColon clean with
        | some rest => pyStrip rest
        | none => clean
      else clean
    speak synthFails false (removeEmojis clean) s

end TTS

namespace KB

/-- Operating systems distinguished by `platform.system().lower()`. -/
inductive OS where
  | darwin | linux | windows
  deriving DecidableEq, Repr

/-- What the low-level `keyboard.wait('space')` call does: return on a
key press, raise an `OSError` with a message, or raise some other
exception. -/
inductive WaitOutcome where
  | pressed
  | osError (msg : String)
  | otherError
  deriving DecidableEq, Repr

/-- Environment of `KeyboardInterrupt.start_listening`: whether the
`keyboard` module imported, the platform, the behaviour of the blocking
wait, and whether an interruption callback was registered. -/
structure Env where
  keyboard_available : Bool
  os : OS
  wait_outcome : WaitOutcome
  callback_set : Bool
  deriving DecidableEq, Repr

/-- Observable state of the interrupt source: the `is_listening` flag,
whether the line-buffered fallback listener thread was started, whether
the low-level listener thread was started, whether any exception
escaped a listener thread, whether the callback fired, and the
`admin_error_shown` flag. -/
structure State where
  is_listening : Bool
  fallback_started : Bool
  real_listener_started : Bool
  error_propagated : Bool
  callback_fired : Bool
  admin_error_shown : Bool
  deriving DecidableEq, Repr

/-- Constructor state of `KeyboardInterrupt`. -/
def init : State :=
  { is_listening := false, fallback_started := false,
    real_listener_started := false, error_propagated := false,
    callback_fired := false, admin_error_shown := false }

/-- Messages recognized as permission errors by the `OSError`
handler. -/
def permMessages : List String :=
  ["Error 13", "Must be run as administrator", "Permission denied"]

/-- Python `any(msg in error_msg for msg in [...])`. -/
def isPermError (msg : String) : Bool :=
  permMessages.any (fun m => STT.containsSubB m.toList msg.toList)

/-- Model of `KeyboardInterrupt._start_fallback_listener`: returns immediately
when `is_listening` is already set; otherwise sets the flag and starts
the ENTER-key fallback thread. -/
def startFallback (s : State) : State :=
  if s.is_listening then s
  else { s with is_listening := true, fallback_started := true }

/-- Body of the `listen_for_spacebar` thread: the wait either returns
(fire the callback when still listening and one is set), or raises.
Every exception is caught; both the permission-error branch (which also
prints the hint and sets `admin_error_shown`) and the generic branches
call `_start_fallback_listener`. -/
def listenThread (env : Env) (s : State) : State :=
  match env.wait_outcome with
  | WaitOutcome.pressed =>
      if s.is_listening && env.callback_set then { s with callback_fired := true }
      else s
  | WaitOutcome.osError msg =>
      if isPermError msg then startFallback { s with admin_error_shown := true }
      else startFallback s
  | WaitOutcome.otherError => startFallback s

/-- Model of `KeyboardInterrupt.start_listening`: fall back right away when the
keyboard module is missing or on macOS; otherwise set `is_listening`,
start the low-level listener thread and run it. -/
def start_listening (env : Env) (s : State) : State :=
  if !env.keyboard_available then startFallback s
  else if env.os = OS.darwin then startFallback s
  else
    let s1 := { s with is_listening := true, real_listener_started := true }
    listenThread env s1

/-- Keyboard available on Linux, but the low-level wait is denied with
a permission error. -/
def permDeniedEnv : Env :=
  { keyboard_available := true, os := OS.linux,
    wait_outcome := WaitOutcome.osError "Error 13 - Must be run as administrator",
    callback_set := true }

end KB

namespace STT

/-- A step other than `resumeListening` keeps `is_paused = true` and
emits nothing while paused. -/
theorem step_paused_no_emit (s : State) (c : Cmd)
    (hp : s.is_paused = true) (hc : c ≠ Cmd.resumeListening) :
    (step s c).is_paused = true ∧ (step s c).emissions = s.emissions := by
  cases c with
  | deliver f => simp [step, hp]
  | pauseListening => simp [step]
  | resumeListening => exact absurd rfl hc
  | tick now => simp [step, hp]

/-- While paused, a run containing no `resumeListening` leaves the pause
flag set and the emission list unchanged. -/
theorem run_paused_no_emit (cs : List Cmd) (s : State)
    (hp : s.is_paused = true) (hr : Cmd.resumeListening ∉ cs) :
    (run s cs).is_paused = true ∧ (run s cs).emissions = s.emissions := by
  induction cs generalizing s with
  | nil => exact ⟨hp, rfl⟩
  | cons c cs ih =>
      have hc : c ≠ Cmd.resumeListening := fun h => hr (h ▸ List.mem_cons_self c cs)
      have hstep := step_paused_no_emit s c hp hc
      have htail := ih (step s c) hstep.1 (fun h => hr (List.mem_cons_of_mem c h))
      exact ⟨htail.1, htail.2.trans hstep.2⟩

/-- C8: while capture is paused for a playback job and no resume occurs,
no voice-spoken stop phrase can be transcribed and acted on: the run
adds no emission, so for every transcriber the list of stop commands
produced during the job is empty. -/
theorem C8_voice_stop_ineffective_while_paused (s : State) (cs : List Cmd)
    (tr : List Frame → String)
    (hp : s.is_paused = true) (hr : Cmd.resumeListening ∉ cs) :
    (run s cs).is_paused = true ∧
    (run s cs).emissions = s.emissions ∧
    (((run s cs).emissions.drop s.emissions.length).map tr).filter
        (fun t => isStopCommand t) = [] := by
  have h := run_paused_no_emit cs s hp hr
  refine ⟨h.1, h.2, ?_⟩
  rw [h.2, List.drop_length]
  rfl

theorem C8_voice_stop_ineffective_while_paused_witness :
    let s : State := { initListening with is_paused := true }
    let cs : List Cmd := [Cmd.deliver ⟨1, 500⟩, Cmd.tick 100,
      Cmd.deliver ⟨2, 500⟩, Cmd.tick 400]
    (run s cs).is_paused = true ∧
    (run s cs).emissions = s.emissions ∧
    (((run s cs).emissions.drop s.emissions.length).map
        (fun _ => "stop")).filter (fun t => isStopCommand t) = [] := by
  exact C8_voice_stop_ineffective_while_paused _ _ (fun _ => "stop")
    rfl (by decide)

/-- C2 fails on the code: frame 1 is captured and buffered before the
pause (no utterance has been emitted at pause time), yet after resume
it appears inside the utterance handed to the transcriber —
`pause_listening` drains only `audio_queue`, not the loop-local
`audio_buffer`. -/
theorem C2_counterexample :
    (run initListening (c2cmds.take 3)).is_paused = true ∧
    (run initListening (c2cmds.take 3)).emissions = [] ∧
    (run initListening (c2cmds.take 3)).buffer = [⟨1, 500⟩] ∧
    frameIdInEmissions 1 (run initListening c2cmds) = true := by
  decide

/-- C2 amended: on `pause_listening` only the delivery queue is
discarded; the frames already accumulated in the utterance buffer are
retained across the pause (and can therefore appear in an utterance
emitted after resume). -/
theorem C2_pause_drains_queue_only (s : State) :
    (step s Cmd.pauseListening).is_paused = true ∧
    (step s Cmd.pauseListening).queue = [] ∧
    (step s Cmd.pauseListening).buffer = s.buffer := by
  simp [step]

/-- A `tick` either leaves the state unchanged, or consumes the queue
head and then either emits the extended buffer (resetting buffer and
silence tracker) or retains the extended buffer. -/
theorem tick_cases (s : State) (now : Nat) :
    step s (Cmd.tick now) = s ∨
    (∃ f rest, s.queue = f :: rest ∧
      (step s (Cmd.tick now) =
          { s with queue := rest, buffer := [], silence_start := none,
                   emissions := s.emissions ++ [s.buffer ++ [f]] } ∨
       ∃ ss, step s (Cmd.tick now) =
          { s with queue := rest, buffer := s.buffer ++ [f],
                   silence_start := ss })) := by
  cases hl : s.is_listening
  · left; simp [step, hl]
  · cases hp : s.is_paused
    · rcases hq : s.queue with _ | ⟨f, rest⟩
      · left; simp [step, hl, hp, hq]
      · right
        refine ⟨f, rest, rfl, ?_⟩
        simp only [step, hl, hp, hq, Bool.not_true, Bool.false_eq_true,
          if_false, if_true]
        split
        · split
          · left; rfl
          · split
            · left; rfl
            · right; exact ⟨_, rfl⟩
        · split
          · left; rfl
          · split
            · left; rfl
            · right; exact ⟨_, rfl⟩
    · left; simp [step, hl, hp]

/-- If a frame tagged `x` is absent from the queue, buffer and
emissions, one step keeps it absent provided any delivery of `x` at
this step is inactive. -/
theorem step_preserves_absent (x : Nat) (s : State) (c : Cmd)
    (h1 : frameIdInState x s = false) (h2 : frameIdInEmissions x s = false)
    (hc : inactiveDeliverB x s c = true) :
    frameIdInState x (step s c) = false ∧ frameIdInEmissions x (step s c) = false := by
  cases c with
  | deliver f =>
      by_cases hid : f.id = x
      · cases hl : s.is_listening <;> cases hp : s.is_paused <;>
          simp_all [inactiveDeliverB, step, frameIdInState, frameIdInEmissions] <;>
          try assumption
      · cases hl : s.is_listening <;> cases hp : s.is_paused <;>
          simp_all [inactiveDeliverB, step, frameIdInState, frameIdInEmissions] <;>
          try assumption
  | pauseListening =>
      simp_all [step, frameIdInState, frameIdInEmissions]
      try assumption
  | resumeListening =>
      simp_all [step, frameIdInState, frameIdInEmissions]
      try assumption
  | tick now =>
      rcases tick_cases s now with heq | ⟨f, rest, hq, heq | ⟨ss, heq⟩⟩
      · rw [heq]; exact ⟨h1, h2⟩
      · rw [heq]
        constructor <;> simp_all [frameIdInState, frameIdInEmissions, hq]
        all_goals assumption
      · rw [heq]
        constructor <;> simp_all [frameIdInState, frameIdInEmissions, hq]
        all_goals assumption

/-- C3: a frame delivered only at moments when capture is paused (or
listening stopped) is dropped at `_audio_callback`: it never reaches the
queue or the utterance buffer and never occurs in any utterance handed
to the transcriber. -/
theorem C3_paused_frames_never_emitted (x : Nat) (s : State) (cs : List Cmd)
    (h1 : frameIdInState x s = false)
    (h2 : frameIdInEmissions x s = false)
    (h3 : inactiveAtDeliveries x s cs = true) :
    frameIdInState x (run s cs) = false ∧
    frameIdInEmissions x (run s cs) = false := by
  induction cs generalizing s with
  | nil => exact ⟨h1, h2⟩
  | cons c cs ih =>
      simp only [inactiveAtDeliveries, Bool.and_eq_true] at h3
      obtain ⟨hc, h3⟩ := h3
      have hstep := step_preserves_absent x s c h1 h2 hc
      exact ih (step s c) hstep.1 hstep.2 h3

theorem C3_paused_frames_never_emitted_witness :
    let cs : List Cmd := [Cmd.pauseListening, Cmd.deliver ⟨7, 500⟩,
      Cmd.resumeListening, Cmd.deliver ⟨8, 0⟩, Cmd.tick 100,
      Cmd.deliver ⟨9, 0⟩, Cmd.tick 400]
    frameIdInState 7 (run initListening cs) = false ∧
    frameIdInEmissions 7 (run initListening cs) = false := by
  exact C3_paused_frames_never_emitted 7 initListening _
    (by decide) (by decide) (by decide)

/-- C6: when the buffer reaches the duration cap while listening and
unpaused, the tick that consumes the capping chunk emits the whole
concatenated buffer to the transcriber — regardless of the silence
state — and resets the buffer and silence tracker, leaving the
listening flags untouched so ingestion continues. -/
theorem C6_forced_flush_at_cap (s : State) (f : Frame) (rest : List Frame) (now : Nat)
    (hl : s.is_listening = true) (hp : s.is_paused = false)
    (hq : s.queue = f :: rest)
    (hcap : (s.buffer.length + 1) * chunkMs ≥ maxBufferMs) :
    step s (Cmd.tick now) =
      { s with queue := rest, buffer := [], silence_start := none,
               emissions := s.emissions ++ [s.buffer ++ [f]] } := by
  have hgt : (s.buffer ++ [f]).length * 300 > 5000 := by
    simp only [List.length_append, List.length_cons, List.length_nil]
    simp only [chunkMs, maxBufferMs] at hcap
    omega
  simp only [step, hl, hp, hq, Bool.not_true, Bool.false_eq_true, if_false,
    if_true, chunkMs, maxBufferMs, minSpeechMs, silenceDurMs]
  split_ifs <;> rfl

theorem C6_forced_flush_at_cap_witness :
    let s : State := { initListening with
      buffer := List.replicate 16 ⟨0, 500⟩, queue := [⟨17, 500⟩] }
    step s (Cmd.tick 4900) =
      { s with queue := [], buffer := [], silence_start := none,
               emissions := [List.replicate 16 ⟨0, 500⟩ ++ [⟨17, 500⟩]] } := by
  exact C6_forced_flush_at_cap _ ⟨17, 500⟩ [] 4900 rfl rfl rfl (by decide)

/-- C7 fails on the code: five silent frames from an empty buffer do
get handed to the transcriber (twice), because the
`min_speech_duration` check compares total buffered duration (0.3 s per
chunk) against 0.1 s regardless of speech content. -/
theorem C7_counterexample :
    (run initListening c7cmds).emissions ≠ [] ∧
    (run initListening c7cmds).emissions.length = 2 ∧
    ∀ u ∈ (run initListening c7cmds).emissions, ∀ fr ∈ u,
      isSilenceF fr = true := by
  decide

/-- C7 amended: from the fresh listening state, two consecutive silent
frames processed 300 ms apart are emitted to the transcriber as one
utterance — the buffered duration (600 ms) passes the 100 ms
`min_speech_duration` check and the 300 ms silence run passes the
150 ms hangover, speech content notwithstanding. -/
theorem C7_silent_buffer_handed_to_transcriber (t : Nat) (f g : Frame)
    (hf : isSilenceF f = true) (hg : isSilenceF g = true) :
    (run initListening
      [Cmd.deliver f, Cmd.tick t, Cmd.deliver g,
       Cmd.tick (t + chunkMs)]).emissions = [[f, g]] := by
  simp [run, step, initListening, hf, hg, chunkMs, minSpeechMs,
    silenceDurMs, maxBufferMs, Nat.add_sub_cancel_left]

theorem C7_silent_buffer_handed_to_transcriber_witness :
    (run initListening
      [Cmd.deliver ⟨1, 0⟩, Cmd.tick 100, Cmd.deliver ⟨2, 0⟩,
       Cmd.tick (100 + chunkMs)]).emissions = [[⟨1, 0⟩, ⟨2, 0⟩]] := by
  exact C7_silent_buffer_handed_to_transcriber 100 ⟨1, 0⟩ ⟨2, 0⟩
    (by decide) (by decide)

end STT

namespace TTS

/-- C1 fails on the code: the trace of a successful `_speak_sync` from
the idle state contains a state (right after `self.is_speaking = True`,
before `pause_listening()`) where a job is active but capture is not
paused, so `is_paused` is not equivalent to `is_speaking` at all
times. -/
theorem C1_counterexample :
    (speakSyncTrace false idle).get? 1 = some { idle with is_speaking := true } ∧
    ((speakSyncTrace false idle).all
      fun st => st.is_speaking == st.is_paused) = false := by
  decide

/-- C1 amended: in every state of the `_speak_sync` trace from idle,
`is_paused` implies `is_speaking` (capture is paused only inside a
job), the playback subprocess only ever runs while capture is paused,
and the job ends with capture resumed and the speaking flag cleared;
however the pause is established strictly after `is_speaking` is set
and released strictly before it is cleared, so PAUSED is not exactly
equivalent to job-active. -/
theorem C1_paused_only_within_job (synthFails : Bool) :
    ((speakSyncTrace synthFails idle).all
      fun st => !st.is_paused || st.is_speaking) = true ∧
    ((speakSyncTrace synthFails idle).all
      fun st => !st.proc_running || st.is_paused) = true ∧
    ((speakSyncTrace synthFails idle).getLastD idle).is_paused = false ∧
    ((speakSyncTrace synthFails idle).getLastD idle).is_speaking = false := by
  cases synthFails <;> decide

/-- C4: whatever the job outcome — synthesis failure included — the
final state of `_speak_sync` has capture resumed (`is_paused = false`)
and the job terminated (`is_speaking = false`), and the error is
reported exactly when synthesis failed. -/
theorem C4_failsafe_restores_listening (synthFails : Bool) :
    (speakSyncFinal synthFails idle).is_speaking = false ∧
    (speakSyncFinal synthFails idle).is_paused = false ∧
    (speakSyncFinal synthFails idle).error_reported = synthFails := by
  cases synthFails <;> decide

/-- C5: cancellation is idempotent — with no active job both cancel
entry points are exact no-ops, repeating either is absorbed, and two
back-to-back interrupts during one job produce at most one cancellation
effect. -/
theorem C5_cancel_idempotent (s : State) :
    (s.is_speaking = false → stop_speaking s = s ∧ interrupt_speech s = s) ∧
    stop_speaking (stop_speaking s) = stop_speaking s ∧
    interrupt_speech (interrupt_speech s) = interrupt_speech s ∧
    (interrupt_speech (interrupt_speech s)).cancel_count ≤ s.cancel_count + 1 := by
  cases hsp : s.is_speaking <;>
    simp [stop_speaking, interrupt_speech, hsp]

theorem C5_cancel_idempotent_witness :
    stop_speaking idle = idle ∧ interrupt_speech idle = idle ∧
    interrupt_speech (interrupt_speech idle) = interrupt_speech idle := by
  have h := C5_cancel_idempotent idle
  exact ⟨(h.1 rfl).1, (h.1 rfl).2, h.2.2.1⟩

/-- C10: for text consisting only of whitespace, `speak` (blocking or
not) and `speak_response` return with the state unchanged: no thread,
no job, no pause, no temp file. -/
theorem C10_whitespace_noop (synthFails blocking : Bool) (text : List Char)
    (s : State) (h : ∀ c ∈ text, isPyWhitespace c = true) :
    speak synthFails blocking text s = s ∧
    speak_response synthFails text s = s := by
  have h1 : text.dropWhile isPyWhitespace = [] :=
    List.dropWhile_eq_nil_iff.mpr (by simpa using h)
  have hstrip : pyStrip text = [] := by
    simp [pyStrip, h1]
  simp [speak, speak_response, hstrip]

theorem C10_whitespace_noop_witness :
    speak false false " \t\n ".toList idle = idle ∧
    speak_response false " \t\n ".toList idle = idle := by
  exact C10_whitespace_noop false false " \t\n ".toList idle (by decide)

end TTS

namespace KB

/-- C9 is half-true on the code: no error ever propagates out of the
listener thread, and the missing-module path does start the fallback;
but in the permission-error path `_start_fallback_listener` returns
without starting anything, because `start_listening` already set
`is_listening = True` before spawning the listener thread, so the
fallback guard `if self.is_listening: return` fires.  Only the hint
message is printed. -/
theorem C9_code_eval :
    (start_listening permDeniedEnv init).fallback_started = false ∧
    (start_listening permDeniedEnv init).admin_error_shown = true ∧
    (start_listening permDeniedEnv init).error_propagated = false ∧
    (start_listening { permDeniedEnv with keyboard_available := false }
        init).fallback_started = true := by
  decide

end KB
